import Mathlib

/-!
Shallow embedding of the go-printify order client (client.go and the orders
file).  JSON documents are modelled as a value tree, Go structs as Lean
structures, nilable Go pointers as `Option`, Go slices as `Option (List _)`
(`none` is the nil slice), and `encoding/json` struct tags as explicit
encode/decode functions.  JSON numbers are modelled as rationals, which
represent every decimal literal exactly; the float32 rounding performed by
the Go runtime is not exercised by any statement below.
-/

/-- A JSON document, as the value tree the Go json package operates on.
Byte-level rendering and parsing are not modelled: object fields keep the
order in which the encoder emits them. -/
inductive Json where
  | null : Json
  | bool (b : Bool) : Json
  | num (q : Rat) : Json
  | str (s : String) : Json
  | arr (elems : List Json) : Json
  | obj (fields : List (String × Json)) : Json

/-- Go `time.Time` as it appears on the wire: an RFC3339 text.  The client never
inspects the value, so the text itself is the model. -/
structure TimeStamp where
  rfc3339 : String

/-- Modelled from the spec: `LineItem` references a `PrintDetails` type whose
definition is not among the provided source files; the spec does not describe
its fields, so it is modelled as an opaque JSON object payload. -/
structure PrintDetails where
  fieldsRaw : List (String × Json)

structure LineItemMetadata where
  Title : String
  Price : Rat
  VariantLabel : String
  Sku : String
  Country : String

structure Shipment where
  Carrier : String
  Number : String
  Url : String
  DeliveredAt : TimeStamp

structure OrderMetadata where
  OrderType : String
  ShopOrderId : Int
  ShopOrderLabel : String
  ShopFulfilledAt : TimeStamp

structure LineItem where
  Id : Option Int
  VariantId : Option Int
  ProductId : Option String
  BlueprintId : Option Int
  Quantity : Int
  PrintProviderId : Option Int
  PrintAreas : Option (List (String × String))
  PrintDetails : Option PrintDetails
  Cost : Option Rat
  Sku : Option String
  ShippingCost : Option Rat
  Status : Option String
  Metadata : Option LineItemMetadata
  SentToProductionAt : Option TimeStamp
  FulfilledAt : Option TimeStamp

structure Order where
  Id : Option String
  AddressTo : Option (List (String × String))
  LineItems : Option (List (Option LineItem))
  Metadata : Option OrderMetadata
  TotalPrice : Option Rat
  TotalShipping : Option Rat
  TotalTax : Option Rat
  Status : Option String
  ShippingMethod : Int
  SendShippingNotification : Option Bool
  Shipments : Option (List (Option Shipment))
  CreatedAt : Option TimeStamp
  SentToProductionAt : Option TimeStamp
  FulfilledAt : Option TimeStamp

structure ShippingCost where
  Standard : Rat
  Express : Rat

structure OrderSubmitResponse where
  ID : Option String

/-- The Go zero value `LineItem{}`. -/
def zeroLineItem : LineItem :=
  ⟨none, none, none, none, 0, none, none, none, none, none, none, none, none, none, none⟩

/-- The Go zero value `Order{}`: every pointer nil, nil slices, zero int. -/
def zeroOrder : Order :=
  ⟨none, none, none, none, none, none, none, none, 0, none, none, none, none, none⟩

def zeroOrderMetadata : OrderMetadata := ⟨"", 0, "", ⟨""⟩⟩

def zeroLineItemMetadata : LineItemMetadata := ⟨"", 0, "", "", ""⟩

def zeroShipment : Shipment := ⟨"", "", "", ⟨""⟩⟩

def zeroShippingCost : ShippingCost := ⟨0, 0⟩

def zeroOrderSubmitResponse : OrderSubmitResponse := ⟨none⟩

/-! ## Encoding (the `json:"...,omitempty"` struct tags) -/

/-- A field a struct tag marks `omitempty` on a pointer: emitted only when the
pointer is non-nil. -/
def optField (key : String) : Option Json → List (String × Json)
  | none => []
  | some j => [(key, j)]

/-- One element of a slice of pointers: a nil pointer encodes as `null`. -/
def encElem (enc : α → Json) : Option α → Json
  | none => Json.null
  | some a => enc a

/-- A slice field marked `omitempty`: Go omits it when the slice is nil or
empty. -/
def optSliceField (key : String) (enc : α → Json) : Option (List (Option α)) → List (String × Json)
  | none => []
  | some [] => []
  | some xs => [(key, Json.arr (xs.map (encElem enc)))]

/-- A slice field with no `omitempty`: always emitted, nil slice as `null`. -/
def sliceField (key : String) (enc : α → Json) : Option (List (Option α)) → List (String × Json)
  | none => [(key, Json.null)]
  | some xs => [(key, Json.arr (xs.map (encElem enc)))]

def encInt (n : Int) : Json := Json.num (n : Rat)

/-- A `*bool` field with no `omitempty` (`send_shipping_notification`):
always emitted, a nil pointer as `null`. -/
def encNullableBool : Option Bool → Json
  | none => Json.null
  | some b => Json.bool b

def encTime (t : TimeStamp) : Json := Json.str t.rfc3339

def encStringMap (m : List (String × String)) : Json :=
  Json.obj (m.map (fun kv => (kv.1, Json.str kv.2)))

def encPrintDetails (p : PrintDetails) : Json := Json.obj p.fieldsRaw

def encLineItemMetadata (m : LineItemMetadata) : Json :=
  Json.obj [("title", Json.str m.Title), ("price", Json.num m.Price),
    ("variant_label", Json.str m.VariantLabel), ("sku", Json.str m.Sku),
    ("country", Json.str m.Country)]

def encShipment (s : Shipment) : Json :=
  Json.obj [("carrier", Json.str s.Carrier), ("number", Json.str s.Number),
    ("url", Json.str s.Url), ("delivered_at", encTime s.DeliveredAt)]

def encOrderMetadata (m : OrderMetadata) : Json :=
  Json.obj [("order_type", Json.str m.OrderType), ("shop_order_id", encInt m.ShopOrderId),
    ("shop_order_label", Json.str m.ShopOrderLabel),
    ("shop_fulfilled_at", encTime m.ShopFulfilledAt)]

def encLineItem (l : LineItem) : Json :=
  Json.obj (optField "id" (l.Id.map encInt)
    ++ optField "variant_id" (l.VariantId.map encInt)
    ++ optField "product_id" (l.ProductId.map Json.str)
    ++ optField "blueprint_id" (l.BlueprintId.map encInt)
    ++ [("quantity", encInt l.Quantity)]
    ++ optField "print_provider_id" (l.PrintProviderId.map encInt)
    ++ optField "print_areas" (l.PrintAreas.map encStringMap)
    ++ optField "print_details" (l.PrintDetails.map encPrintDetails)
    ++ optField "cost" (l.Cost.map Json.num)
    ++ optField "sku" (l.Sku.map Json.str)
    ++ optField "shipping_cost" (l.ShippingCost.map Json.num)
    ++ optField "status" (l.Status.map Json.str)
    ++ optField "metadata" (l.Metadata.map encLineItemMetadata)
    ++ optField "sent_to_production_at" (l.SentToProductionAt.map encTime)
    ++ optField "fulfilled_at" (l.FulfilledAt.map encTime))

def encOrder (o : Order) : Json :=
  Json.obj (optField "id" (o.Id.map Json.str)
    ++ optField "address_to" (o.AddressTo.map encStringMap)
    ++ sliceField "line_items" encLineItem o.LineItems
    ++ optField "metadata" (o.Metadata.map encOrderMetadata)
    ++ optField "total_price" (o.TotalPrice.map Json.num)
    ++ optField "total_shipping" (o.TotalShipping.map Json.num)
    ++ optField "total_tax" (o.TotalTax.map Json.num)
    ++ optField "status" (o.Status.map Json.str)
    ++ [("shipping_method", encInt o.ShippingMethod)]
    ++ [("send_shipping_notification", encNullableBool o.SendShippingNotification)]
    ++ optSliceField "shipments" encShipment o.Shipments
    ++ optField "created_at" (o.CreatedAt.map encTime)
    ++ optField "sent_to_production_at" (o.SentToProductionAt.map encTime)
    ++ optField "fulfilled_at" (o.FulfilledAt.map encTime))

/-! ## Decoding (Go `json.Unmarshal` / `json.Decoder.Decode` into a value)

Decoding merges into an existing value: JSON object keys update the matching
struct field, unknown keys are ignored, absent keys leave the field as it
was, and JSON `null` is a no-op on scalar fields but sets pointer and slice
fields to nil.  Go collects type errors and keeps decoding; the model stops
at the first error — the difference is only visible in partially written
destinations on the error path, which nothing below inspects. -/

def decStr : Json → Except String String
  | .str s => .ok s
  | _ => .error "json: cannot unmarshal value into string"

def decInt : Json → Except String Int
  | .num q => if q.den = 1 then .ok q.num else .error "json: cannot unmarshal number into int"
  | _ => .error "json: cannot unmarshal value into int"

def decRat : Json → Except String Rat
  | .num q => .ok q
  | _ => .error "json: cannot unmarshal value into float32"

def decBool : Json → Except String Bool
  | .bool b => .ok b
  | _ => .error "json: cannot unmarshal value into bool"

def decTime : Json → Except String TimeStamp
  | .str s => .ok ⟨s⟩
  | _ => .error "json: cannot unmarshal value into time.Time"

def decStringMap : Json → Except String (List (String × String))
  | .obj fs => fs.mapM (fun kv => (decStr kv.2).map (fun v => (kv.1, v)))
  | _ => .error "json: cannot unmarshal value into map"

/-- Scalar (non-pointer) field update: `null` leaves the current value. -/
def setScalar (dec : Json → Except String α) (cur : α) : Json → Except String α
  | .null => .ok cur
  | j => dec j

/-- Pointer field update: `null` sets nil, otherwise decode a fresh value. -/
def decPtr (dec : Json → Except String α) : Json → Except String (Option α)
  | .null => .ok none
  | j => (dec j).map some

/-- Pointer-to-struct field update: `null` sets nil, otherwise decode into
the existing pointee (or a fresh zero value when the pointer was nil). -/
def decPtrInto (decInto : α → Json → Except String α) (zero : α) (cur : Option α) :
    Json → Except String (Option α)
  | .null => .ok none
  | j => (decInto (cur.getD zero) j).map some

/-- Slice-of-pointers field update: `null` sets the nil slice, an array
decodes each element (a fresh zero pointee per element, `null` elements as
nil pointers). -/
def decPtrSlice (dec : Json → Except String α) : Json → Except String (Option (List (Option α)))
  | .null => .ok none
  | .arr xs => (xs.mapM (decPtr dec)).map some
  | _ => .error "json: cannot unmarshal value into slice"

def decodePrintDetails : Json → Except String PrintDetails
  | .obj fs => .ok ⟨fs⟩
  | _ => .error "json: cannot unmarshal value into PrintDetails"

def stepLineItemMetadata (m : LineItemMetadata) (kv : String × Json) :
    Except String LineItemMetadata :=
  match kv.1 with
  | "title" => (setScalar decStr m.Title kv.2).map (fun x => { m with Title := x })
  | "price" => (setScalar decRat m.Price kv.2).map (fun x => { m with Price := x })
  | "variant_label" => (setScalar decStr m.VariantLabel kv.2).map (fun x => { m with VariantLabel := x })
  | "sku" => (setScalar decStr m.Sku kv.2).map (fun x => { m with Sku := x })
  | "country" => (setScalar decStr m.Country kv.2).map (fun x => { m with Country := x })
  | _ => .ok m

def decodeLineItemMetadataInto (m : LineItemMetadata) : Json → Except String LineItemMetadata
  | .null => .ok m
  | .obj fs => fs.foldlM stepLineItemMetadata m
  | _ => .error "json: cannot unmarshal value into LineItemMetadata"

def stepShipment (s : Shipment) (kv : String × Json) : Except String Shipment :=
  match kv.1 with
  | "carrier" => (setScalar decStr s.Carrier kv.2).map (fun x => { s with Carrier := x })
  | "number" => (setScalar decStr s.Number kv.2).map (fun x => { s with Number := x })
  | "url" => (setScalar decStr s.Url kv.2).map (fun x => { s with Url := x })
  | "delivered_at" => (setScalar decTime s.DeliveredAt kv.2).map (fun x => { s with DeliveredAt := x })
  | _ => .ok s

def decodeShipmentInto (s : Shipment) : Json → Except String Shipment
  | .null => .ok s
  | .obj fs => fs.foldlM stepShipment s
  | _ => .error "json: cannot unmarshal value into Shipment"

def stepOrderMetadata (m : OrderMetadata) (kv : String × Json) : Except String OrderMetadata :=
  match kv.1 with
  | "order_type" => (setScalar decStr m.OrderType kv.2).map (fun x => { m with OrderType := x })
  | "shop_order_id" => (setScalar decInt m.ShopOrderId kv.2).map (fun x => { m with ShopOrderId := x })
  | "shop_order_label" => (setScalar decStr m.ShopOrderLabel kv.2).map (fun x => { m with ShopOrderLabel := x })
  | "shop_fulfilled_at" => (setScalar decTime m.ShopFulfilledAt kv.2).map (fun x => { m with ShopFulfilledAt := x })
  | _ => .ok m

def decodeOrderMetadataInto (m : OrderMetadata) : Json → Except String OrderMetadata
  | .null => .ok m
  | .obj fs => fs.foldlM stepOrderMetadata m
  | _ => .error "json: cannot unmarshal value into OrderMetadata"

def stepLineItem (l : LineItem) (kv : String × Json) : Except String LineItem :=
  match kv.1 with
  | "id" => (decPtr decInt kv.2).map (fun x => { l with Id := x })
  | "variant_id" => (decPtr decInt kv.2).map (fun x => { l with VariantId := x })
  | "product_id" => (decPtr decStr kv.2).map (fun x => { l with ProductId := x })
  | "blueprint_id" => (decPtr decInt kv.2).map (fun x => { l with BlueprintId := x })
  | "quantity" => (setScalar decInt l.Quantity kv.2).map (fun x => { l with Quantity := x })
  | "print_provider_id" => (decPtr decInt kv.2).map (fun x => { l with PrintProviderId := x })
  | "print_areas" => (decPtr decStringMap kv.2).map (fun x => { l with PrintAreas := x })
  | "print_details" => (decPtr decodePrintDetails kv.2).map (fun x => { l with PrintDetails := x })
  | "cost" => (decPtr decRat kv.2).map (fun x => { l with Cost := x })
  | "sku" => (decPtr decStr kv.2).map (fun x => { l with Sku := x })
  | "shipping_cost" => (decPtr decRat kv.2).map (fun x => { l with ShippingCost := x })
  | "status" => (decPtr decStr kv.2).map (fun x => { l with Status := x })
  | "metadata" => (decPtrInto decodeLineItemMetadataInto zeroLineItemMetadata l.Metadata kv.2).map
      (fun x => { l with Metadata := x })
  | "sent_to_production_at" => (decPtr decTime kv.2).map (fun x => { l with SentToProductionAt := x })
  | "fulfilled_at" => (decPtr decTime kv.2).map (fun x => { l with FulfilledAt := x })
  | _ => .ok l

def decodeLineItemInto (l : LineItem) : Json → Except String LineItem
  | .null => .ok l
  | .obj fs => fs.foldlM stepLineItem l
  | _ => .error "json: cannot unmarshal value into LineItem"

def stepOrder (o : Order) (kv : String × Json) : Except String Order :=
  match kv.1 with
  | "id" => (decPtr decStr kv.2).map (fun x => { o with Id := x })
  | "address_to" => (decPtr decStringMap kv.2).map (fun x => { o with AddressTo := x })
  | "line_items" => (decPtrSlice (decodeLineItemInto zeroLineItem) kv.2).map
      (fun x => { o with LineItems := x })
  | "metadata" => (decPtrInto decodeOrderMetadataInto zeroOrderMetadata o.Metadata kv.2).map
      (fun x => { o with Metadata := x })
  | "total_price" => (decPtr decRat kv.2).map (fun x => { o with TotalPrice := x })
  | "total_shipping" => (decPtr decRat kv.2).map (fun x => { o with TotalShipping := x })
  | "total_tax" => (decPtr decRat kv.2).map (fun x => { o with TotalTax := x })
  | "status" => (decPtr decStr kv.2).map (fun x => { o with Status := x })
  | "shipping_method" => (setScalar decInt o.ShippingMethod kv.2).map
      (fun x => { o with ShippingMethod := x })
  | "send_shipping_notification" => (decPtr decBool kv.2).map
      (fun x => { o with SendShippingNotification := x })
  | "shipments" => (decPtrSlice (decodeShipmentInto zeroShipment) kv.2).map
      (fun x => { o with Shipments := x })
  | "created_at" => (decPtr decTime kv.2).map (fun x => { o with CreatedAt := x })
  | "sent_to_production_at" => (decPtr decTime kv.2).map (fun x => { o with SentToProductionAt := x })
  | "fulfilled_at" => (decPtr decTime kv.2).map (fun x => { o with FulfilledAt := x })
  | _ => .ok o

/-- Decode into a caller-supplied `*Order` as `json.Decode` does (top-level `null` is a
no-op on a struct destination). -/
def decodeOrderInto (o : Order) : Json → Except String Order
  | .null => .ok o
  | .obj fs => fs.foldlM stepOrder o
  | _ => .error "json: cannot unmarshal value into Order"

def stepShippingCost (s : ShippingCost) (kv : String × Json) : Except String ShippingCost :=
  match kv.1 with
  | "standard" => (setScalar decRat s.Standard kv.2).map (fun x => { s with Standard := x })
  | "express" => (setScalar decRat s.Express kv.2).map (fun x => { s with Express := x })
  | _ => .ok s

def decodeShippingCostInto (s : ShippingCost) : Json → Except String ShippingCost
  | .null => .ok s
  | .obj fs => fs.foldlM stepShippingCost s
  | _ => .error "json: cannot unmarshal value into ShippingCost"

def stepOrderSubmitResponse (r : OrderSubmitResponse) (kv : String × Json) :
    Except String OrderSubmitResponse :=
  match kv.1 with
  | "id" => (decPtr decStr kv.2).map (fun x => OrderSubmitResponse.mk x)
  | _ => .ok r

/-- Unmarshal into a fresh `OrderSubmitResponse` (the `{id}`
envelope). -/
def decodeOrderSubmitResponse : Json → Except String OrderSubmitResponse
  | .null => .ok zeroOrderSubmitResponse
  | .obj fs => fs.foldlM stepOrderSubmitResponse zeroOrderSubmitResponse
  | _ => .error "json: cannot unmarshal value into OrderSubmitResponse"

/-- Decode into the caller's `*[]*Order` (`ListShopOrders`): a JSON
`null` body sets the slice itself to nil. -/
def decodeOrderListInto (_dst : Option (List (Option Order))) :
    Json → Except String (Option (List (Option Order)))
  | .null => .ok none
  | .arr xs => (xs.mapM (decPtr (decodeOrderInto zeroOrder))).map some
  | _ => .error "json: cannot unmarshal value into slice of Order"

/-! ## Client, request builder and invoker (client.go) -/

def contentType : String := "application/json;charset=utf-8"

def baseURL : String := "api.printify.com"

def scheme : String := "https"

structure Client where
  ApiVersion : String
  UserAgent : String
  apiKey : String

/-- Constructor `NewClient` (the base URL is the fixed scheme/host pair). -/
def NewClient (apiKey : String) : Client :=
  ⟨"v1", "alhasaniq/go-printify v1.0.2", apiKey⟩

/-- A built `*http.Request`.  Headers are kept in the order `newRequest`
sets them; `http.Header.Set` keeps one value per key. -/
structure Request where
  method : String
  url : String
  body : Option Json
  headers : List (String × String)

def getHeader (r : Request) (key : String) : Option String :=
  (r.headers.find? (fun kv => kv.1 == key)).map (fun kv => kv.2)

/-- The request builder `newRequest`: resolve the relative path against the base URL, attach the
JSON-encoded body when one is supplied, and set the fixed headers.  The
percent-escaping `net/url` applies when printing the URL is not modelled; no
statement below concerns the URL text.  For the methods and bodies this
client uses, neither the JSON encoder nor `http.NewRequest` can fail, so the
two error returns of the source are dead and the model is total. -/
def newRequest (c : Client) (method path : String) (body : Option Json) : Request :=
  { method := method
    url := scheme ++ "://" ++ baseURL ++ "/" ++ c.ApiVersion ++ "/" ++ path
    body := body
    headers :=
      (match body with
        | none => []
        | some _ => [("Content-Type", contentType)])
      ++ [("Accept", "application/json"),
          ("User-Agent", c.UserAgent),
          ("Authorization", "Bearer " ++ c.apiKey)] }

/-- An `*http.Response`: the status code and the (already buffered) body. -/
structure HttpResponse where
  statusCode : Nat
  body : Json

/-- The error taxonomy of one `do` call.  In the source all three are plain
`error` values of distinct dynamic types: the transport error returned by
`http.Client.Do`, the `fmt.Errorf` protocol error, and a json decode
error. -/
inductive ClientError where
  | transportError (cause : String) : ClientError
  | protocolError (statusCode : Nat) : ClientError
  | decodeError (cause : String) : ClientError

/-- The message text the source attaches to each error. -/
def ClientError.message : ClientError → String
  | .transportError cause => cause
  | .protocolError code => "printify API request failed with status:" ++ toString code
  | .decodeError cause => cause

/-- The invoker `(c *Client) do(req, v)`: run the transport once, classify the status
code, and decode a success body into the destination.  Returns the
`*http.Response` (`none` exactly when the transport failed), the final
destination value, and the error.  `tr` is the behaviour of
`c.httpClient.Do`; `dec` is `json.Decode` for the destination type. -/
def doRequest (tr : Except String HttpResponse) (dest : α)
    (dec : α → Json → Except String α) : Option HttpResponse × α × Option ClientError :=
  match tr with
  | .error cause => (none, dest, some (.transportError cause))
  | .ok resp =>
    if 400 ≤ resp.statusCode then
      (some resp, dest, some (.protocolError resp.statusCode))
    else
      match dec dest resp.body with
      | .error cause => (some resp, dest, some (.decodeError cause))
      | .ok d => (some resp, d, none)

/-! ## Resource operations (the orders file)

Each operation is parametrised by the transport behaviour
`tr : Request → Except String HttpResponse` standing for
`c.httpClient.Do`. -/

/-- Path template `getShopOrdersPath` instantiated: `shops/%d/orders.json`. -/
def getShopOrdersPath (shopId : Int) : String :=
  "shops/" ++ toString shopId ++ "/orders.json"

def getShopOrderPath (shopId orderId : Int) : String :=
  "shops/" ++ toString shopId ++ "/orders/" ++ toString orderId ++ ".json"

def sendOrderToProductionPath (shopId orderId : Int) : String :=
  "shops/" ++ toString shopId ++ "/orders/" ++ toString orderId ++ "/send_to_production.json"

def getShippingCostsPath (shopId : Int) : String :=
  "shops/" ++ toString shopId ++ "/orders/shipping.json"

def cancelOrderPath (shopId orderId : Int) : String :=
  "shops/" ++ toString shopId ++ "/orders/" ++ toString orderId ++ "/cancel.json"

/-- The path (with query string) `ListShopOrders` builds with its chain of
`Sprintf` appends. -/
def listShopOrdersPath (shopId : Int) (page limit : Option Int) (statusFilter : Option String) :
    String :=
  let path := getShopOrdersPath shopId
  let path := if page.isSome || limit.isSome || statusFilter.isSome then path ++ "?" else path
  let path := match page with
    | some p => path ++ "page=" ++ toString p
    | none => path
  let path := match limit with
    | some l => path ++ "&limit=" ++ toString l
    | none => path
  match statusFilter with
  | some s => path ++ "&status=" ++ s
  | none => path

/-- The request `ListShopOrders` builds. -/
def listShopOrdersRequest (c : Client) (shopId : Int) (page limit : Option Int)
    (statusFilter : Option String) : Request :=
  newRequest c "GET" (listShopOrdersPath shopId page limit statusFilter) none

/-- Operation `ListShopOrders`: decode into `make([]*Order, 0)` and return the slice
together with the error from `do`. -/
def ListShopOrders (c : Client) (tr : Request → Except String HttpResponse) (shopId : Int)
    (page limit : Option Int) (statusFilter : Option String) :
    Option (List (Option Order)) × Option ClientError :=
  let req := listShopOrdersRequest c shopId page limit statusFilter
  let r := doRequest (tr req) (some ([] : List (Option Order))) decodeOrderListInto
  (r.2.1, r.2.2)

/-- Operation `GetOrderDetails`: decode into a fresh `&Order{}` and always return that
pointer (`some`) alongside the error. -/
def GetOrderDetails (c : Client) (tr : Request → Except String HttpResponse)
    (shopId orderId : Int) : Option Order × Option ClientError :=
  let req := newRequest c "GET" (getShopOrderPath shopId orderId) none
  let r := doRequest (tr req) zeroOrder decodeOrderInto
  (some r.2.1, r.2.2)

/-- The request `SubmitOrder` builds: POST with the order as body. -/
def submitOrderRequest (c : Client) (shopId : Int) (order : Order) : Request :=
  newRequest c "POST" (getShopOrdersPath shopId) (some (encOrder order))

/-- How a call of `SubmitOrder` ends: a Go `(id *string, err)` return, or a
runtime panic. -/
inductive SubmitOutcome where
  | returns (id : Option String) (err : Option String) : SubmitOutcome
  | panics (msg : String) : SubmitOutcome

/-- Operation `SubmitOrder`: the caller's order is both the request body and the
decode destination of `do`.  On an error from `do` the source reads
`resp.Body` — a nil-pointer dereference when the transport failed (`do`
returned a nil response) — and unmarshals it as the `{id}` envelope,
returning the envelope's id with a nil error; on success from `do` it
returns `(nil, nil)`.  The first component is the final value of the
caller's order. -/
def SubmitOrder (c : Client) (tr : Request → Except String HttpResponse) (shopId : Int)
    (order : Order) : Order × SubmitOutcome :=
  let req := submitOrderRequest c shopId order
  match doRequest (tr req) order decodeOrderInto with
  | (respOpt, order2, errOpt) =>
    match errOpt with
    | some _ =>
      match respOpt with
      | none =>
        (order2, .panics "runtime error: invalid memory address or nil pointer dereference")
      | some resp =>
        match decodeOrderSubmitResponse resp.body with
        | .error m => (order2, .returns none (some m))
        | .ok envelope => (order2, .returns envelope.ID none)
    | none => (order2, .returns none none)

/-- Operation `SendOrderToProduction`: like `GetOrderDetails`, POST with no body. -/
def SendOrderToProduction (c : Client) (tr : Request → Except String HttpResponse)
    (shopId orderId : Int) : Option Order × Option ClientError :=
  let req := newRequest c "POST" (sendOrderToProductionPath shopId orderId) none
  let r := doRequest (tr req) zeroOrder decodeOrderInto
  (some r.2.1, r.2.2)

/-- Operation `CalculateShippingCosts`: the order is serialized as the body only; the
decode destination is a fresh `&ShippingCost{}`.  The first component is the
caller's order as the call leaves it. -/
def CalculateShippingCosts (c : Client) (tr : Request → Except String HttpResponse)
    (shopId : Int) (order : Order) : Order × Option ShippingCost × Option ClientError :=
  let req := newRequest c "POST" (getShippingCostsPath shopId) (some (encOrder order))
  let r := doRequest (tr req) zeroShippingCost decodeShippingCostInto
  (order, some r.2.1, r.2.2)

/-- Operation `CancelOrder`: like `GetOrderDetails`, POST with no body. -/
def CancelOrder (c : Client) (tr : Request → Except String HttpResponse)
    (shopId orderId : Int) : Option Order × Option ClientError :=
  let req := newRequest c "POST" (cancelOrderPath shopId orderId) none
  let r := doRequest (tr req) zeroOrder decodeOrderInto
  (some r.2.1, r.2.2)

/-! ## Round-trip lemmas (encode then decode) -/

theorem opt_elim_none_some (x : Option α) : x.elim none some = x := by
  cases x <;> rfl

theorem strMapM (m : List (String × String)) :
    (m.map (fun kv => (kv.1, Json.str kv.2))).mapM
      (fun kv => (decStr kv.2).map (fun v => (kv.1, v))) = Except.ok m := by
  induction m with
  | nil => rfl
  | cons kv tl ih =>
    simp only [List.map_cons, List.mapM_cons, ih]
    rfl

theorem decStringMap_enc (m : List (String × String)) :
    decStringMap (encStringMap m) = Except.ok m :=
  strMapM m

theorem liFoldId (st : LineItem) (x : Option Int) (rest : List (String × Json)) :
    List.foldlM stepLineItem st (optField "id" (x.map encInt) ++ rest)
      = List.foldlM stepLineItem { st with Id := x.elim st.Id some } rest := by
  cases x <;> rfl

theorem liFoldVariantId (st : LineItem) (x : Option Int) (rest : List (String × Json)) :
    List.foldlM stepLineItem st (optField "variant_id" (x.map encInt) ++ rest)
      = List.foldlM stepLineItem { st with VariantId := x.elim st.VariantId some } rest := by
  cases x <;> rfl

theorem liFoldProductId (st : LineItem) (x : Option String) (rest : List (String × Json)) :
    List.foldlM stepLineItem st (optField "product_id" (x.map Json.str) ++ rest)
      = List.foldlM stepLineItem { st with ProductId := x.elim st.ProductId some } rest := by
  cases x <;> rfl

theorem liFoldBlueprintId (st : LineItem) (x : Option Int) (rest : List (String × Json)) :
    List.foldlM stepLineItem st (optField "blueprint_id" (x.map encInt) ++ rest)
      = List.foldlM stepLineItem { st with BlueprintId := x.elim st.BlueprintId some } rest := by
  cases x <;> rfl

theorem liFoldQuantity (st : LineItem) (n : Int) (rest : List (String × Json)) :
    List.foldlM stepLineItem st ([("quantity", encInt n)] ++ rest)
      = List.foldlM stepLineItem { st with Quantity := n } rest := rfl

theorem liFoldPrintProviderId (st : LineItem) (x : Option Int) (rest : List (String × Json)) :
    List.foldlM stepLineItem st (optField "print_provider_id" (x.map encInt) ++ rest)
      = List.foldlM stepLineItem { st with PrintProviderId := x.elim st.PrintProviderId some } rest := by
  cases x <;> rfl

theorem liFoldPrintAreas (st : LineItem) (x : Option (List (String × String)))
    (rest : List (String × Json)) :
    List.foldlM stepLineItem st (optField "print_areas" (x.map encStringMap) ++ rest)
      = List.foldlM stepLineItem { st with PrintAreas := x.elim st.PrintAreas some } rest := by
  cases x with
  | none => rfl
  | some m =>
    show ((decStringMap (encStringMap m)).map some).map (fun v => { st with PrintAreas := v })
        >>= (fun s2 => List.foldlM stepLineItem s2 rest) = _
    rw [decStringMap_enc]
    rfl

theorem liFoldPrintDetails (st : LineItem) (x : Option PrintDetails)
    (rest : List (String × Json)) :
    List.foldlM stepLineItem st (optField "print_details" (x.map encPrintDetails) ++ rest)
      = List.foldlM stepLineItem { st with PrintDetails := x.elim st.PrintDetails some } rest := by
  cases x <;> rfl

theorem liFoldCost (st : LineItem) (x : Option Rat) (rest : List (String × Json)) :
    List.foldlM stepLineItem st (optField "cost" (x.map Json.num) ++ rest)
      = List.foldlM stepLineItem { st with Cost := x.elim st.Cost some } rest := by
  cases x <;> rfl

theorem liFoldSku (st : LineItem) (x : Option String) (rest : List (String × Json)) :
    List.foldlM stepLineItem st (optField "sku" (x.map Json.str) ++ rest)
      = List.foldlM stepLineItem { st with Sku := x.elim st.Sku some } rest := by
  cases x <;> rfl

theorem liFoldShippingCost (st : LineItem) (x : Option Rat) (rest : List (String × Json)) :
    List.foldlM stepLineItem st (optField "shipping_cost" (x.map Json.num) ++ rest)
      = List.foldlM stepLineItem { st with ShippingCost := x.elim st.ShippingCost some } rest := by
  cases x <;> rfl

theorem liFoldStatus (st : LineItem) (x : Option String) (rest : List (String × Json)) :
    List.foldlM stepLineItem st (optField "status" (x.map Json.str) ++ rest)
      = List.foldlM stepLineItem { st with Status := x.elim st.Status some } rest := by
  cases x <;> rfl

theorem liFoldMetadata (st : LineItem) (x : Option LineItemMetadata)
    (rest : List (String × Json)) :
    List.foldlM stepLineItem st (optField "metadata" (x.map encLineItemMetadata) ++ rest)
      = List.foldlM stepLineItem { st with Metadata := x.elim st.Metadata some } rest := by
  cases x <;> rfl

theorem liFoldSentToProductionAt (st : LineItem) (x : Option TimeStamp)
    (rest : List (String × Json)) :
    List.foldlM stepLineItem st (optField "sent_to_production_at" (x.map encTime) ++ rest)
      = List.foldlM stepLineItem { st with SentToProductionAt := x.elim st.SentToProductionAt some } rest := by
  cases x <;> rfl

theorem liFoldFulfilledAtLast (st : LineItem) (x : Option TimeStamp) :
    List.foldlM stepLineItem st (optField "fulfilled_at" (x.map encTime))
      = Except.ok { st with FulfilledAt := x.elim st.FulfilledAt some } := by
  cases x <;> rfl

theorem lineItem_roundtrip (l : LineItem) :
    decodeLineItemInto zeroLineItem (encLineItem l) = Except.ok l := by
  obtain ⟨x1, x2, x3, x4, q, x5, pa, pd, c1, sk, sc, st2, md, spa, fa⟩ := l
  simp only [encLineItem, decodeLineItemInto, List.append_assoc]
  rw [liFoldId, liFoldVariantId, liFoldProductId, liFoldBlueprintId, liFoldQuantity,
    liFoldPrintProviderId, liFoldPrintAreas, liFoldPrintDetails, liFoldCost, liFoldSku,
    liFoldShippingCost, liFoldStatus, liFoldMetadata, liFoldSentToProductionAt,
    liFoldFulfilledAtLast]
  simp only [zeroLineItem, opt_elim_none_some]

theorem decPtr_encLineItem (a : LineItem) :
    decPtr (decodeLineItemInto zeroLineItem) (encElem encLineItem (some a))
      = Except.ok (some a) := by
  show (decodeLineItemInto zeroLineItem (encLineItem a)).map some = _
  rw [lineItem_roundtrip]
  rfl

theorem lineItemList_roundtrip (xs : List (Option LineItem)) :
    (xs.map (encElem encLineItem)).mapM (decPtr (decodeLineItemInto zeroLineItem))
      = Except.ok xs := by
  induction xs with
  | nil => rfl
  | cons hd tl ih =>
    simp only [List.map_cons, List.mapM_cons, ih]
    cases hd with
    | none => rfl
    | some a =>
      rw [decPtr_encLineItem]
      rfl

/-- The optional fields of an `Order`: the nilable pointer fields and the
`omitempty` slice.  (`LineItems` and `ShippingMethod` are not optional.) -/
def orderOptionalFieldsAbsent (o : Order) : Prop :=
  o.Id = none ∧ o.AddressTo = none ∧ o.Metadata = none ∧ o.TotalPrice = none
    ∧ o.TotalShipping = none ∧ o.TotalTax = none ∧ o.Status = none
    ∧ o.SendShippingNotification = none ∧ o.Shipments = none ∧ o.CreatedAt = none
    ∧ o.SentToProductionAt = none ∧ o.FulfilledAt = none

/-- C6: for every Order whose optional fields are all absent, encoding it to
JSON and decoding the result back (into a fresh zero Order, as the client
does) yields that same Order — in particular those fields are still absent,
not replaced by zero values. -/
theorem c6_order_roundtrip_optional_absent (o : Order)
    (h : orderOptionalFieldsAbsent o) :
    decodeOrderInto zeroOrder (encOrder o) = Except.ok o := by
  obtain ⟨a1, a2, li, a3, a4, a5, a6, a7, sm, a8, a9, a10, a11, a12⟩ := o
  simp only [orderOptionalFieldsAbsent] at h
  obtain ⟨rfl, rfl, rfl, rfl, rfl, rfl, rfl, rfl, rfl, rfl, rfl, rfl⟩ := h
  simp only [encOrder, decodeOrderInto, optField, Option.map_none', optSliceField,
    encNullableBool, List.nil_append, List.append_nil, List.cons_append,
    List.append_assoc]
  cases li with
  | none => rfl
  | some xs =>
    show (((xs.map (encElem encLineItem)).mapM (decPtr (decodeLineItemInto zeroLineItem))).map
            some).map (fun v => { zeroOrder with LineItems := v })
        >>= (fun s2 => List.foldlM stepOrder s2
          [("shipping_method", encInt sm), ("send_shipping_notification", Json.null)])
      = _
    rw [lineItemList_roundtrip]
    rfl

/-- Witness for C6 at the zero Order (all optional fields absent). -/
theorem c6_order_roundtrip_witness :
    orderOptionalFieldsAbsent zeroOrder
      ∧ decodeOrderInto zeroOrder (encOrder zeroOrder) = Except.ok zeroOrder :=
  ⟨⟨rfl, rfl, rfl, rfl, rfl, rfl, rfl, rfl, rfl, rfl, rfl, rfl⟩,
    c6_order_roundtrip_optional_absent zeroOrder
      ⟨rfl, rfl, rfl, rfl, rfl, rfl, rfl, rfl, rfl, rfl, rfl, rfl⟩⟩

/-! ## The List query string (C3) -/

/-- Spec side (follows the claim's words): the `key=value` pair of each
supplied parameter, in page, limit, status order, and nothing for absent
ones. -/
def specListParams (page limit : Option Int) (statusFilter : Option String) : List String :=
  (match page with
    | some p => ["page=" ++ toString p]
    | none => [])
  ++ (match limit with
    | some l => ["limit=" ++ toString l]
    | none => [])
  ++ (match statusFilter with
    | some s => ["status=" ++ s]
    | none => [])

/-- Join query parameters with single `&` separators. -/
def ampJoin : List String → String
  | [] => ""
  | [x] => x
  | x :: xs => x ++ "&" ++ ampJoin xs

/-- Spec side (follows the claim's words, to compare with
`listShopOrdersPath`): a query string holding exactly the supplied
parameters after one `?`, with no stray separator, and empty when no
parameter is supplied. -/
def specListQuery (page limit : Option Int) (statusFilter : Option String) : String :=
  match specListParams page limit statusFilter with
  | [] => ""
  | ps => "?" ++ ampJoin ps

/-! ## Concrete transport behaviours used in witnesses and counterexamples -/

/-- A transport that answers every request with the given response. -/
def respondWith (resp : HttpResponse) : Request → Except String HttpResponse :=
  fun _ => Except.ok resp

/-- A transport whose network call itself fails with the given cause. -/
def failTransport (cause : String) : Request → Except String HttpResponse :=
  fun _ => Except.error cause

/-- The minimal identifier envelope body `{"id": "abc123"}`. -/
def idEnvelopeBody : Json := Json.obj [("id", Json.str "abc123")]

/-! ## The claims -/

/-- C1: the claim fails on the code.  For a success response (status 200)
whose body is the minimal identifier envelope, `SubmitOrder` returns a nil
identifier and a nil error: the envelope is only parsed on the failure
branch of `do`, and the success body is instead decoded into the caller's
order (whose `Id` becomes "abc123").  No success response ever yields an
identifier result. -/
theorem c1_submit_success_envelope_returns_nil_id :
    SubmitOrder (NewClient "key") (respondWith ⟨200, idEnvelopeBody⟩) 7 zeroOrder
      = ({ zeroOrder with Id := some "abc123" }, SubmitOutcome.returns none none) := rfl

/-- C2: every response with status ≥ 400 makes `do` return a protocol error
carrying exactly that status code, and the caller-supplied destination is
returned exactly as it was (the body is never decoded on this path). -/
theorem c2_protocol_error_leaves_destination {α : Type} (resp : HttpResponse) (dest : α)
    (dec : α → Json → Except String α) (h : 400 ≤ resp.statusCode) :
    doRequest (Except.ok resp) dest dec
      = (some resp, dest, some (ClientError.protocolError resp.statusCode)) := by
  simp [doRequest, h]

/-- Witness for C2 at status 404 with an Order destination. -/
theorem c2_protocol_error_witness :
    doRequest (Except.ok ⟨404, Json.null⟩) zeroOrder decodeOrderInto
      = (some ⟨404, Json.null⟩, zeroOrder, some (ClientError.protocolError 404)) :=
  c2_protocol_error_leaves_destination ⟨404, Json.null⟩ zeroOrder decodeOrderInto (by decide)

/-- C3 counterexample: with page absent and limit = 10 the built path is
`shops/1/orders.json?&limit=10` — a stray `&` after the `?` — and not the
claimed query string holding exactly the supplied parameters. -/
theorem c3_absent_page_stray_separator :
    listShopOrdersPath 1 none (some 10) none = "shops/1/orders.json?&limit=10"
      ∧ listShopOrdersPath 1 none (some 10) none
          ≠ getShopOrdersPath 1 ++ specListQuery none (some 10) none := by
  exact ⟨by decide, by decide⟩

/-- C3 amended: the query string holds exactly the supplied `key=value`
pairs (nothing for absent parameters, no query string when all three are
absent) — except that whenever page is absent while limit or status is
supplied, the query string begins with a stray `&` right after the `?`. -/
theorem c3_amended_query_string (sid : Int) (p l : Option Int) (s : Option String) :
    listShopOrdersPath sid p l s =
      getShopOrdersPath sid ++
        (if p = none ∧ (l ≠ none ∨ s ≠ none)
          then "?&" ++ ampJoin (specListParams p l s)
          else specListQuery p l s) := by
  obtain _ | a := p <;> obtain _ | b := l <;> obtain _ | c := s <;>
    simp [listShopOrdersPath, getShopOrdersPath, specListQuery, specListParams, ampJoin,
      String.append_assoc, String.append_empty] <;>
    rfl

/-- C4: the claim fails on the code.  When the transport call itself fails,
`do` returns a nil response, and `SubmitOrder` reads `resp.Body` from that
nil pointer on its error branch: the call panics instead of returning the
transport error to the caller. -/
theorem c4_submit_transport_failure_panics :
    SubmitOrder (NewClient "key") (failTransport "dial tcp: connection refused") 7 zeroOrder
      = (zeroOrder,
        SubmitOutcome.panics "runtime error: invalid memory address or nil pointer dereference") :=
  rfl

/-- C5 counterexample: `SubmitOrder` mutates the caller-supplied order: it
goes in with a nil `Id` and, because the order itself is the decode
destination for the success response, comes back with `Id = "abc123"`. -/
theorem c5_submit_mutates_caller_order :
    (SubmitOrder (NewClient "key") (respondWith ⟨200, idEnvelopeBody⟩) 7 zeroOrder).1.Id
        = some "abc123"
      ∧ zeroOrder.Id = none :=
  ⟨rfl, rfl⟩

/-- C5 amended: operations that do not use the caller's Order as a decode
destination leave it unchanged (`CalculateShippingCosts` only serializes
it), and `SubmitOrder` leaves it unchanged on transport and protocol
errors; but `SubmitOrder` decodes a success response body into the caller's
order, so the order becomes whatever that decode produces. -/
theorem c5_amended_order_mutation (c : Client) (tr : Request → Except String HttpResponse)
    (shopId : Int) (order : Order) :
    ((CalculateShippingCosts c tr shopId order).1 = order)
    ∧ (∀ e, tr (submitOrderRequest c shopId order) = Except.error e
        → (SubmitOrder c tr shopId order).1 = order)
    ∧ (∀ r, tr (submitOrderRequest c shopId order) = Except.ok r → 400 ≤ r.statusCode
        → (SubmitOrder c tr shopId order).1 = order)
    ∧ (∀ r d, tr (submitOrderRequest c shopId order) = Except.ok r → r.statusCode < 400
        → decodeOrderInto order r.body = Except.ok d
        → (SubmitOrder c tr shopId order).1 = d) := by
  refine ⟨rfl, ?_, ?_, ?_⟩
  · intro e he
    simp only [SubmitOrder]
    rw [he]
    rfl
  · intro r hr hs
    simp only [SubmitOrder]
    rw [hr]
    simp only [doRequest, hs, if_pos]
    rcases decodeOrderSubmitResponse r.body with m | envelope <;> rfl
  · intro r d hr hs hd
    have hn : ¬ 400 ≤ r.statusCode := Nat.not_le.mpr hs
    simp only [SubmitOrder]
    rw [hr]
    simp [doRequest, hn, hd]

/-- Witness for C5 amended: on a transport failure the caller's order is
unchanged. -/
theorem c5_amended_witness :
    (SubmitOrder (NewClient "key") (failTransport "dial tcp: connection refused") 7 zeroOrder).1
      = zeroOrder :=
  (c5_amended_order_mutation (NewClient "key") (failTransport "dial tcp: connection refused")
    7 zeroOrder).2.1 "dial tcp: connection refused" rfl

/-- C7: a success-status response whose body does not decode into the
destination yields a decode error — an error value distinct from every
protocol error, and never a silent success. -/
theorem c7_decode_error_distinct_from_protocol {α : Type} (resp : HttpResponse) (dest : α)
    (dec : α → Json → Except String α) (m : String)
    (hs : resp.statusCode < 400) (hd : dec dest resp.body = Except.error m) :
    doRequest (Except.ok resp) dest dec
        = (some resp, dest, some (ClientError.decodeError m))
      ∧ ∀ code, ClientError.decodeError m ≠ ClientError.protocolError code := by
  have hn : ¬ 400 ≤ resp.statusCode := Nat.not_le.mpr hs
  exact ⟨by simp [doRequest, hn, hd], fun code h => ClientError.noConfusion h⟩

/-- Witness for C7: status 200 with a plain-string body against an Order
destination. -/
theorem c7_decode_error_witness :
    doRequest (Except.ok ⟨200, Json.str "oops"⟩) zeroOrder decodeOrderInto
        = (some ⟨200, Json.str "oops"⟩, zeroOrder,
            some (ClientError.decodeError "json: cannot unmarshal value into Order"))
      ∧ ∀ code, ClientError.decodeError "json: cannot unmarshal value into Order"
          ≠ ClientError.protocolError code :=
  c7_decode_error_distinct_from_protocol ⟨200, Json.str "oops"⟩ zeroOrder decodeOrderInto
    "json: cannot unmarshal value into Order" (by decide) rfl

/-- C8: a request built with a nil body carries no content-type header;
one built with a body carries the JSON content-type header. -/
theorem c8_content_type_header (c : Client) (method path : String) :
    getHeader (newRequest c method path none) "Content-Type" = none
      ∧ ∀ body : Json, getHeader (newRequest c method path (some body)) "Content-Type"
          = some contentType :=
  ⟨rfl, fun _ => rfl⟩

/-- C9 counterexample: a success response whose body is JSON `null` decodes
the slice itself to nil, so `ListShopOrders` returns a nil sequence — with
no error. -/
theorem c9_null_body_returns_nil_slice :
    ListShopOrders (NewClient "key") (respondWith ⟨200, Json.null⟩) 1 none none none
      = (none, none) := rfl

/-- C9 amended: the sequence `ListShopOrders` returns is non-nil (possibly
empty) on every outcome except one: a success-status response whose body is
JSON `null`, which decodes the slice to nil and is returned with no
error. -/
theorem decodeOrderListInto_ok_none (dst : Option (List (Option Order))) (j : Json)
    (h : decodeOrderListInto dst j = Except.ok none) : j = Json.null := by
  cases j with
  | null => rfl
  | bool b => exact Except.noConfusion h
  | num q => exact Except.noConfusion h
  | str s => exact Except.noConfusion h
  | obj fs => exact Except.noConfusion h
  | arr xs =>
    exfalso
    have h2 : (xs.mapM (decPtr (decodeOrderInto zeroOrder))).map some = Except.ok none := h
    cases hm : xs.mapM (decPtr (decodeOrderInto zeroOrder)) with
    | error m =>
      rw [hm] at h2
      exact Except.noConfusion h2
    | ok ys =>
      rw [hm] at h2
      have h3 : (Except.ok (some ys) : Except String (Option (List (Option Order))))
          = Except.ok none := h2
      injection h3 with h4
      exact Option.noConfusion h4

/-- A nil final destination for the order-list decode arises only from a
success response whose body is JSON `null`, and then without error. -/
theorem doRequest_list_none (t : Except String HttpResponse)
    (h : (doRequest t (some ([] : List (Option Order))) decodeOrderListInto).2.1 = none) :
    ∃ r, t = Except.ok r ∧ r.statusCode < 400 ∧ r.body = Json.null
      ∧ (doRequest t (some ([] : List (Option Order))) decodeOrderListInto).2.2 = none := by
  rcases t with e | r
  · exact absurd h (by simp [doRequest])
  · by_cases hs : 400 ≤ r.statusCode
    · exact absurd h (by simp [doRequest, hs])
    · rcases hd : decodeOrderListInto (some ([] : List (Option Order))) r.body with m | d
      · exact absurd h (by simp [doRequest, hs, hd])
      · have h2 : (doRequest (Except.ok r) (some ([] : List (Option Order)))
            decodeOrderListInto).2.1 = d := by
          simp [doRequest, hs, hd]
        have hdn : d = none := h2.symm.trans h
        subst hdn
        exact ⟨r, rfl, Nat.not_le.mp hs, decodeOrderListInto_ok_none _ _ hd,
          by simp [doRequest, hs, hd]⟩

/-- C9 amended: the sequence `ListShopOrders` returns is non-nil (possibly
empty) on every outcome except one: a success-status response whose body is
JSON `null`, which decodes the slice to nil and is returned with no
error. -/
theorem c9_amended_nil_only_from_null_body (c : Client)
    (tr : Request → Except String HttpResponse) (shopId : Int) (page limit : Option Int)
    (statusFilter : Option String)
    (h : (ListShopOrders c tr shopId page limit statusFilter).1 = none) :
    ∃ r, tr (listShopOrdersRequest c shopId page limit statusFilter) = Except.ok r
      ∧ r.statusCode < 400 ∧ r.body = Json.null
      ∧ (ListShopOrders c tr shopId page limit statusFilter).2 = none := by
  obtain ⟨r, ht, hlt, hb, he⟩ :=
    doRequest_list_none (tr (listShopOrdersRequest c shopId page limit statusFilter)) h
  exact ⟨r, ht, hlt, hb, he⟩

/-- Witness for C9 amended at the null-body success response. -/
theorem c9_amended_witness :
    ∃ r, respondWith ⟨200, Json.null⟩
          (listShopOrdersRequest (NewClient "key") 1 none none none) = Except.ok r
      ∧ r.statusCode < 400 ∧ r.body = Json.null
      ∧ (ListShopOrders (NewClient "key") (respondWith ⟨200, Json.null⟩) 1 none none none).2
          = none :=
  c9_amended_nil_only_from_null_body (NewClient "key") (respondWith ⟨200, Json.null⟩)
    1 none none none rfl

/-- On any outcome of `do` that reports a protocol error, the destination
value is handed back unchanged. -/
theorem doRequest_protocol_keeps_dest {α : Type} (t : Except String HttpResponse) (dest : α)
    (dec : α → Json → Except String α) (code : Nat)
    (h : (doRequest t dest dec).2.2 = some (ClientError.protocolError code)) :
    (doRequest t dest dec).2.1 = dest := by
  rcases t with e | r
  · simp [doRequest] at h
  · by_cases hs : 400 ≤ r.statusCode
    · simp [doRequest, hs]
    · rcases hd : dec dest r.body with m | d
      · simp [doRequest, hs, hd]
      · simp [doRequest, hs, hd] at h

/-- C10: `GetOrderDetails`, `SendOrderToProduction` and `CancelOrder` always
hand back a non-nil Order pointer alongside any error, and on a protocol
error that Order is the zero value (the body was never decoded). -/
theorem c10_error_paths_return_order_pointer (c : Client)
    (tr : Request → Except String HttpResponse) (shopId orderId : Int) :
    ((GetOrderDetails c tr shopId orderId).1 ≠ none
      ∧ ∀ code, (GetOrderDetails c tr shopId orderId).2
            = some (ClientError.protocolError code)
          → (GetOrderDetails c tr shopId orderId).1 = some zeroOrder)
    ∧ ((SendOrderToProduction c tr shopId orderId).1 ≠ none
      ∧ ∀ code, (SendOrderToProduction c tr shopId orderId).2
            = some (ClientError.protocolError code)
          → (SendOrderToProduction c tr shopId orderId).1 = some zeroOrder)
    ∧ ((CancelOrder c tr shopId orderId).1 ≠ none
      ∧ ∀ code, (CancelOrder c tr shopId orderId).2
            = some (ClientError.protocolError code)
          → (CancelOrder c tr shopId orderId).1 = some zeroOrder) := by
  refine ⟨⟨?_, ?_⟩, ⟨?_, ?_⟩, ?_, ?_⟩
  · simp [GetOrderDetails]
  · intro code h
    exact congrArg some
      (doRequest_protocol_keeps_dest
        (tr (newRequest c "GET" (getShopOrderPath shopId orderId) none))
        zeroOrder decodeOrderInto code h)
  · simp [SendOrderToProduction]
  · intro code h
    exact congrArg some
      (doRequest_protocol_keeps_dest
        (tr (newRequest c "POST" (sendOrderToProductionPath shopId orderId) none))
        zeroOrder decodeOrderInto code h)
  · simp [CancelOrder]
  · intro code h
    exact congrArg some
      (doRequest_protocol_keeps_dest
        (tr (newRequest c "POST" (cancelOrderPath shopId orderId) none))
        zeroOrder decodeOrderInto code h)

/-- Witness for C10 at a 404 protocol error. -/
theorem c10_error_paths_witness :
    (GetOrderDetails (NewClient "key") (respondWith ⟨404, Json.null⟩) 1 2).1 = some zeroOrder
      ∧ (SendOrderToProduction (NewClient "key") (respondWith ⟨404, Json.null⟩) 1 2).1
          = some zeroOrder
      ∧ (CancelOrder (NewClient "key") (respondWith ⟨404, Json.null⟩) 1 2).1 = some zeroOrder :=
  ⟨(c10_error_paths_return_order_pointer (NewClient "key") (respondWith ⟨404, Json.null⟩)
      1 2).1.2 404 rfl,
    (c10_error_paths_return_order_pointer (NewClient "key") (respondWith ⟨404, Json.null⟩)
      1 2).2.1.2 404 rfl,
    (c10_error_paths_return_order_pointer (NewClient "key") (respondWith ⟨404, Json.null⟩)
      1 2).2.2.2 404 rfl⟩
